import Mathlib

/-!
Verification development for the Dashium request-handling core.

This file shallowly embeds the parts of the repository that the
verified properties talk about:

* `auth.py` — `User`, `Session`, `AuthenticationManager` with
  `is_locked`, `authenticate`, `retrieve_user_by_session_id`, `logout`.
  Wall-clock time is modelled as a `Nat` counting minutes and is passed
  explicitly to every operation that reads the clock (each Python
  function reads the clock during one call; one `now` parameter per
  call models that).  SHA-256 is modelled as an explicit
  `hashPassword : String → String` parameter (the code only pipes
  strings through it), and the random session id as an explicit
  `newSid` parameter.
* `web_server.py` — the GET gate of `do_GET`, `do_POST` dispatch,
  `handle_login_post`, `handle_api_post_request`.  Request bodies are
  modelled as the result of `json.loads` (`Option Json`, `none` being a
  decode error), and callbacks as Lean functions.
* `template_engine.py` — the full rendering pipeline
  (inheritance chain, block collection/substitution, for loops,
  innermost-first if resolution, variable substitution), with the
  regular expressions of the source hand-compiled to character
  scanners.  Recursion uses explicit fuel chosen large enough that the
  fuel-out branches are unreachable (each step consumes at least one
  character / one list element).

Python dicts are association lists: lookup takes the first binding,
insertion replaces in place, preserving insertion order, exactly like
`dict` assignment.
-/

/-- Python dict lookup: first binding for the key, if any. -/
def dictGet {α : Type} (d : List (String × α)) (k : String) : Option α :=
  (d.find? (fun p => p.1 == k)).map (fun p => p.2)

/-- Python dict assignment `d[k] = v`: replace in place if present, else append. -/
def dictInsert {α : Type} (d : List (String × α)) (k : String) (v : α) : List (String × α) :=
  if (d.find? (fun p => p.1 == k)).isSome then
    d.map (fun p => if p.1 == k then (k, v) else p)
  else
    d ++ [(k, v)]

/-- Python `del d[k]`. -/
def dictRemove {α : Type} (d : List (String × α)) (k : String) : List (String × α) :=
  d.filter (fun p => p.1 != k)

/-- Python whitespace class `\s` (ASCII part, which is all the code relies on). -/
def isPySpace (c : Char) : Bool :=
  c = ' ' || c = '\t' || c = '\n' || c = '\x0b' || c = '\x0c' || c = '\r'

/-- Python `str.strip()` on a character list. -/
def pyStripL (l : List Char) : List Char :=
  ((l.dropWhile isPySpace).reverse.dropWhile isPySpace).reverse

/-- Python `str.strip()`. -/
def pyStrip (s : String) : String :=
  String.mk (pyStripL s.data)

/-- JSON values (the value universe flowing through request bodies and
template contexts).  `null` doubles for Python `None`. -/
inductive Json where
  | null : Json
  | bool (b : Bool) : Json
  | num (n : Int) : Json
  | str (s : String) : Json
  | arr (xs : List Json) : Json
  | obj (kvs : List (String × Json)) : Json

/-- Python truthiness of a JSON value. -/
def jsonTruthy : Json → Bool
  | .null => false
  | .bool b => b
  | .num n => n != 0
  | .str s => s != ""
  | .arr xs => !xs.isEmpty
  | .obj kvs => !kvs.isEmpty

/-- Python `str(value)` for the value kinds the templates actually print
(strings and numbers; container printing is approximated and exercised
by no verified property). -/
def pyStr : Json → String
  | .null => "None"
  | .bool b => if b then "True" else "False"
  | .num n => toString n
  | .str s => s
  | .arr _ => "[...]"
  | .obj _ => "{...}"

/- ------------------------------------------------------------------
auth.py
------------------------------------------------------------------ -/

/-- `auth.User`: username plus password hash. -/
structure User where
  username : String
  hashed_password : String
deriving DecidableEq

/-- `auth.Session` (the process-global debug counter is omitted: nothing
observable depends on it). -/
structure Session where
  user : User
  session_id : String
  created_at : Nat
  last_access : Nat
deriving DecidableEq

/-- `auth.AuthenticationManager` state and configuration.  Times are in
minutes: `lock_until` is an absolute minute timestamp and the session
timeout is `60 * session_timeout_hours` minutes. -/
structure AuthManager where
  users : List User
  sessions : List (String × Session)
  failed_attempts : Nat
  lock_until : Option Nat
  session_timeout_hours : Nat
  lock_after_failed_attempts : Nat
  lock_after_failed_attempts_time_minutes : Nat
deriving DecidableEq

/-- `AuthenticationManager.is_locked`: lazily clears an expired lock
(resetting `failed_attempts`) as a side effect of the check. -/
def is_locked (now : Nat) (m : AuthManager) : Bool × AuthManager :=
  match m.lock_until with
  | none => (false, m)
  | some t =>
    if t ≤ now then
      (false, { m with lock_until := none, failed_attempts := 0 })
    else
      (true, m)

/-- Failure tail of `AuthenticationManager.authenticate`: count the
attempt and lock when the configured threshold is reached. -/
def authRegisterFailure (now : Nat) (m : AuthManager) : Option (User × String) × AuthManager :=
  let fa := m.failed_attempts + 1
  let m1 := { m with failed_attempts := fa }
  if m1.lock_after_failed_attempts ≤ fa then
    (none, { m1 with lock_until := some (now + m1.lock_after_failed_attempts_time_minutes) })
  else
    (none, m1)

/-- `AuthenticationManager.authenticate(username, password, password_is_hashed)`.
When `password_is_hashed` is true (the Python default) the given
password is compared directly against the stored hash; otherwise it is
hashed first. -/
def authenticate (now : Nat) (hashPassword : String → String) (newSid : String)
    (m : AuthManager) (username password : String) (password_is_hashed : Bool) :
    Option (User × String) × AuthManager :=
  match is_locked now m with
  | (true, m1) => (none, m1)
  | (false, m1) =>
    let hashed := if password_is_hashed then password else hashPassword password
    match m1.users.find? (fun u => u.username == username && u.hashed_password == hashed) with
    | some u =>
      let sess : Session := { user := u, session_id := newSid, created_at := now, last_access := now }
      (some (u, newSid),
       { m1 with sessions := dictInsert m1.sessions newSid sess, failed_attempts := 0 })
    | none => authRegisterFailure now m1

/-- A call of `authenticate` that passes only username and password,
picking up the Python default `password_is_hashed=True`. -/
def authenticate_default (now : Nat) (hashPassword : String → String) (newSid : String)
    (m : AuthManager) (username password : String) : Option (User × String) × AuthManager :=
  authenticate now hashPassword newSid m username password true

/-- `AuthenticationManager.retrieve_user_by_session_id`. -/
def retrieve_user_by_session_id (now : Nat) (session_id : String) (m : AuthManager) :
    Option User × AuthManager :=
  match dictGet m.sessions session_id with
  | none => (none, m)
  | some s =>
    if 60 * m.session_timeout_hours < now - s.last_access then
      (none, { m with sessions := dictRemove m.sessions session_id })
    else
      (some s.user,
       { m with sessions := dictInsert m.sessions session_id { s with last_access := now } })

/-- `AuthenticationManager.logout`. -/
def logout (session_id : String) (m : AuthManager) : Bool × AuthManager :=
  if (dictGet m.sessions session_id).isSome then
    (true, { m with sessions := dictRemove m.sessions session_id })
  else
    (false, m)

/- ------------------------------------------------------------------
web_server.py — GET gate, POST dispatch, login handler
------------------------------------------------------------------ -/

/-- `urllib.parse.urlparse(raw).path`: the part of the request target
before the first `?` (query) or `#` (fragment). -/
def urlparsePath (raw : String) : String :=
  String.mk (raw.data.takeWhile (fun c => c != '?' && c != '#'))

/-- Python `str.startswith` (evaluates by kernel reduction, unlike
`String.startsWith`). -/
def pyStartswith (s pre : String) : Bool :=
  pre.data.isPrefixOf s.data

/-- UTF-8 bytes of a character (what `urllib.parse.quote` percent-encodes). -/
def utf8Bytes (c : Char) : List Nat :=
  let n := c.toNat
  if n < 0x80 then [n]
  else if n < 0x800 then [0xC0 + n / 0x40, 0x80 + n % 0x40]
  else if n < 0x10000 then
    [0xE0 + n / 0x1000, 0x80 + (n / 0x40) % 0x40, 0x80 + n % 0x40]
  else
    [0xF0 + n / 0x40000, 0x80 + (n / 0x1000) % 0x40, 0x80 + (n / 0x40) % 0x40, 0x80 + n % 0x40]

/-- Uppercase hex digit, as `urllib.parse.quote` emits. -/
def hexDigit (n : Nat) : Char :=
  if n < 10 then Char.ofNat (48 + n) else Char.ofNat (55 + n)

/-- Bytes `urllib.parse.quote` leaves unescaped with the default
`safe='/'`: ASCII alphanumerics, `_ . - ~` and `/`. -/
def isQuoteSafe (b : Nat) : Bool :=
  (65 ≤ b && b ≤ 90) || (97 ≤ b && b ≤ 122) || (48 ≤ b && b ≤ 57) ||
  b == 95 || b == 46 || b == 45 || b == 126 || b == 47

/-- `urllib.parse.quote(s)` with the default `safe='/'`. -/
def quote (s : String) : String :=
  String.mk (((s.data.map utf8Bytes).flatten).map
    (fun b => if isQuoteSafe b then [Char.ofNat b] else ['%', hexDigit (b / 16), hexDigit (b % 16)])).flatten

/-- A GET request: the raw request target (`self.path`) and the parsed
cookie dictionary. -/
structure GetRequest where
  rawPath : String
  cookies : List (String × String)
deriving DecidableEq

/-- Result of `do_GET`.  The authentication gate's own responses are
recorded literally (status, headers, body); requests that pass the gate
are recorded as dispatches to the API / static / view machinery
together with the resolved user. -/
inductive GetOutcome where
  | respond (status : Nat) (headers : List (String × String)) (body : String)
  | apiDispatch (path : String) (user : Option User)
  | staticDispatch (path : String) (user : Option User)
  | pageDispatch (path : String) (user : Option User)
  | notFound (path : String)
deriving DecidableEq

/-- Cookie lookup plus `retrieve_user_by_session_id`, the composite
`do_GET` uses to resolve a user (an empty cookie value is falsy in
Python and is not looked up; exceptions from retrieval are caught and
yield `None`, which the total model has no need of). -/
def resolve_user_from_cookies (now : Nat) (cookies : List (String × String)) (m : AuthManager) :
    Option User × AuthManager :=
  match dictGet cookies "auth_token" with
  | none => (none, m)
  | some tok => if tok = "" then (none, m) else retrieve_user_by_session_id now tok m

/-- Path classification at the end of `do_GET` (API, static files,
registered views, 404). -/
def dispatchGet (path : String) (user : Option User) (m : AuthManager) :
    GetOutcome × AuthManager :=
  if pyStartswith path "/api/" = true then (.apiDispatch path user, m)
  else if pyStartswith path "/static/" = true then (.staticDispatch path user, m)
  else if pyStartswith path "/" = true ∨ path = "" then (.pageDispatch path user, m)
  else (.notFound path, m)

/-- `CustomHTTPRequestHandler.do_GET`: logout handling, the
authentication gate, then dispatch. -/
def do_GET (auth_required : Bool) (now : Nat) (req : GetRequest) (m : AuthManager) :
    GetOutcome × AuthManager :=
  let path := urlparsePath req.rawPath
  if auth_required then
    if path = "/logout" then
      let m2 :=
        match dictGet req.cookies "auth_token" with
        | some tok => if tok = "" then m else (logout tok m).2
        | none => m
      (.respond 302
        [("Location", "/logged_out_page"),
         ("Set-Cookie", "auth_token=; Path=/; Expires=Thu, 01 Jan 1970 00:00:00 GMT; HttpOnly")]
        "", m2)
    else if pyStartswith path "/static/" = false ∧ path ≠ "/login" ∧ path ≠ "/logged_out_page" then
      match resolve_user_from_cookies now req.cookies m with
      | (none, m2) =>
        if pyStartswith path "/api/" = true then
          (.respond 401 [("Content-type", "text/html")]
            "Unauthorized: Please log in to access this resource.", m2)
        else
          (.respond 302 [("Location", "/login?next=" ++ quote req.rawPath)] "", m2)
      | (some u, m2) => dispatchGet path (some u) m2
    else
      dispatchGet path none m
  else
    dispatchGet path none m

/-- A registered POST API endpoint: URL set plus callback
`(body, headers) -> (payload, status)`; a raised exception is an
`Except.error`. -/
structure PostApi where
  urls : List String
  callback : Json → List (String × String) → Except String (Json × Option Nat)

/-- A POST request: raw target, header dictionary, and the JSON-decoded
body (`none` = `json.JSONDecodeError`). -/
structure PostRequest where
  rawPath : String
  headers : List (String × String)
  body : Option Json

/-- Result of a POST handler: a JSON response (status, extra headers,
payload) or `send_error` (status, message). -/
inductive PostOutcome where
  | json (status : Nat) (headers : List (String × String)) (body : Json)
  | err (status : Nat) (msg : String)

/-- Python `status or 200`. -/
def statusOr200 : Option Nat → Nat
  | none => 200
  | some n => if n = 0 then 200 else n

/-- `send_json_response(data, status)`. -/
def send_json_response (data : Json) (status : Nat) : PostOutcome :=
  .json status [("Content-type", "application/json")] data

/-- Body `{"error": msg}`. -/
def jsonErrBody (msg : String) : Json :=
  .obj [("error", .str msg)]

/-- The 423 lock message of `handle_login_post`. -/
def lockedMsg : String :=
  "Authentication is temporarily disabled due to too many failed attempts. Please try again later."

/-- `CustomHTTPRequestHandler.handle_api_post_request`: first matching
registered endpoint wins; body decode errors give 400; callback
exceptions give `send_error 500`. -/
def handle_api_post_request (apis : List PostApi) (path : String)
    (body : Option Json) (headers : List (String × String)) : PostOutcome :=
  match apis.find? (fun a => a.urls.contains path) with
  | none => .err 404 ("API POST endpoint not found for " ++ path)
  | some api =>
    match body with
    | none => send_json_response (jsonErrBody "Invalid JSON format") 400
    | some data =>
      match api.callback data headers with
      | .ok (payload, status) =>
        .json (statusOr200 status)
          [("Content-type", "application/json"), ("Access-Control-Allow-Origin", "*")]
          payload
      | .error _ => .err 500 "Internal Server Error"

/-- The `auth_manager.authenticate(username, password)` call of
`handle_login_post`.  The password out of the JSON body need not be a
string; with the Python default `password_is_hashed=True` a non-string
never equals any stored (string) hash, so the attempt takes the failure
path of `authenticate` (after the same lock check). -/
def loginAuthenticate (now : Nat) (hashPassword : String → String) (newSid : String)
    (username : String) (password : Json) (m : AuthManager) :
    Option (User × String) × AuthManager :=
  match password with
  | .str p => authenticate_default now hashPassword newSid m username p
  | _ =>
    match is_locked now m with
    | (true, m1) => (none, m1)
    | (false, m1) => authRegisterFailure now m1

/-- `CustomHTTPRequestHandler.handle_login_post`.  A body that is not a
JSON object, or whose `username`/`next` values are not strings, makes
the Python code raise inside the outer `try` (`.get`/`.strip` on the
wrong type) and answer 500 "Internal server error". -/
def handle_login_post (now : Nat) (hashPassword : String → String) (newSid : String)
    (body : Option Json) (m : AuthManager) : PostOutcome × AuthManager :=
  match body with
  | none => (send_json_response (jsonErrBody "Invalid JSON format") 400, m)
  | some (.obj data) =>
    match (dictGet data "username").getD (.str ""), (dictGet data "next").getD (.str "/") with
    | .str u0, .str n0 =>
      let username := pyStrip u0
      let password := (dictGet data "password").getD (.str "")
      let next_url := pyStrip n0
      let next_url := if next_url ≠ "" ∧ pyStartswith next_url "/" = false then "/" else next_url
      if username = "" ∨ jsonTruthy password = false then
        (send_json_response (jsonErrBody "Username and password are required") 400, m)
      else
        match is_locked now m with
        | (true, m1) => (send_json_response (jsonErrBody lockedMsg) 423, m1)
        | (false, m1) =>
          match loginAuthenticate now hashPassword newSid username password m1 with
          | (some (_, session_id), m2) =>
            (.json 200
              [("Content-type", "application/json"),
               ("Set-Cookie", "auth_token=" ++ session_id ++ "; Path=/; HttpOnly")]
              (.obj [("success", .bool true), ("message", .str "Login successful"),
                     ("redirect", .str (if next_url ≠ "" then next_url else "/"))]),
             m2)
          | (none, m2) =>
            match is_locked now m2 with
            | (true, m3) => (send_json_response (jsonErrBody lockedMsg) 423, m3)
            | (false, m3) =>
              (send_json_response (jsonErrBody "Invalid username or password") 401, m3)
    | _, _ => (send_json_response (jsonErrBody "Internal server error") 500, m)
  | some _ => (send_json_response (jsonErrBody "Internal server error") 500, m)

/-- `CustomHTTPRequestHandler.do_POST`: `/api/login` goes to the login
handler, every other `/api/` path to the registered POST APIs, anything
else is 404.  `auth_required` and the manager are in scope on the
handler but the POST path never consults them except through the login
handler itself. -/
def do_POST (auth_required : Bool) (now : Nat) (hashPassword : String → String)
    (newSid : String) (post_apis : List PostApi) (req : PostRequest) (m : AuthManager) :
    PostOutcome × AuthManager :=
  let path := urlparsePath req.rawPath
  if path = "/api/login" then
    handle_login_post now hashPassword newSid req.body m
  else if pyStartswith path "/api/" = true then
    (handle_api_post_request post_apis path req.body req.headers, m)
  else
    (.err 404 "Endpoint not found", m)

/-- Modelled from the spec: the sanitization step C7 ascribes to the
login handler — a `next` value is kept exactly when it starts with `/`
and is otherwise replaced by `/`. -/
def claimSanitize (v : String) : String :=
  if pyStartswith v "/" then v else "/"

/- ------------------------------------------------------------------
template_engine.py — scanners for the regex-driven pipeline
------------------------------------------------------------------ -/

/-- The double-quote character. -/
def q34 : Char := Char.ofNat 34

/-- The single-quote character. -/
def q39 : Char := Char.ofNat 39

/-- Python regex `\w` (ASCII scope, which is all the templates use). -/
def isWordChar (c : Char) : Bool :=
  c.isAlphanum || c = '_'

/-- Character class `[\w\.]` of the variable pattern. -/
def isVarChar (c : Char) : Bool :=
  isWordChar c || c = '.'

/-- `l.dropWhile isPySpace`, i.e. consuming `\s*`. -/
def dropWS (l : List Char) : List Char :=
  l.dropWhile isPySpace

/-- Consume a literal character sequence. -/
def matchLit : List Char → List Char → Option (List Char)
  | [], s => some s
  | p :: ps, c :: cs => if c = p then matchLit ps cs else none
  | _ :: _, [] => none

/-- Match `\{\%\s*WORD\s*\%\}` at the head of the input, returning the
remainder (used for `else`, `endif`, `endfor`, `endblock`). -/
def matchSimpleTag (word : List Char) (s : List Char) : Option (List Char) :=
  match s with
  | '\x7b' :: '%' :: s1 =>
    match matchLit word (dropWS s1) with
    | some s3 =>
      match dropWS s3 with
      | '%' :: '\x7d' :: s5 => some s5
      | _ => none
    | none => none
  | _ => none

/-- Match `\{\%\s*block\s+(\w+)\s*\%\}` at the head of the input. -/
def matchBlockOpen (s : List Char) : Option (String × List Char) :=
  match s with
  | '\x7b' :: '%' :: s1 =>
    match matchLit ['b', 'l', 'o', 'c', 'k'] (dropWS s1) with
    | some s3 =>
      match s3 with
      | c :: _ =>
        if isPySpace c then
          let s4 := dropWS s3
          let nameCs := s4.takeWhile isWordChar
          if nameCs.isEmpty then none
          else
            match dropWS (s4.drop nameCs.length) with
            | '%' :: '\x7d' :: s7 => some (String.mk nameCs, s7)
            | _ => none
        else none
      | [] => none
    | none => none
  | _ => none

/-- Match `\{\%\s*for\s+(\w+)\s+in\s+(\w+)\s*\%\}` at the head of the
input, returning the loop variable, the iterable name and the remainder. -/
def matchForOpen (s : List Char) : Option (String × String × List Char) :=
  match s with
  | '\x7b' :: '%' :: s1 =>
    match matchLit ['f', 'o', 'r'] (dropWS s1) with
    | some s3 =>
      match s3 with
      | c :: _ =>
        if isPySpace c then
          let s4 := dropWS s3
          let varCs := s4.takeWhile isWordChar
          if varCs.isEmpty then none
          else
            match s4.drop varCs.length with
            | c2 :: _ =>
              if isPySpace c2 then
                match matchLit ['i', 'n'] (dropWS (s4.drop varCs.length)) with
                | some s6 =>
                  match s6 with
                  | c3 :: _ =>
                    if isPySpace c3 then
                      let s7 := dropWS s6
                      let iterCs := s7.takeWhile isWordChar
                      if iterCs.isEmpty then none
                      else
                        match dropWS (s7.drop iterCs.length) with
                        | '%' :: '\x7d' :: s9 => some (String.mk varCs, String.mk iterCs, s9)
                        | _ => none
                    else none
                  | [] => none
                | none => none
              else none
            | [] => none
        else none
      | [] => none
    | none => none
  | _ => none

/-- Match `\{\%\s*extends\s+["\']([^"\']+)["\']\s*\%\}` at the head of
the input: either quote opens, the name may contain neither quote, and
either quote closes. -/
def matchExtends (s : List Char) : Option (String × List Char) :=
  match s with
  | '\x7b' :: '%' :: s1 =>
    match matchLit ['e', 'x', 't', 'e', 'n', 'd', 's'] (dropWS s1) with
    | some s3 =>
      match s3 with
      | c :: _ =>
        if isPySpace c then
          match dropWS s3 with
          | q :: s5 =>
            if q = q34 || q = q39 then
              let nameCs := s5.takeWhile (fun c2 => c2 != q34 && c2 != q39)
              if nameCs.isEmpty then none
              else
                match s5.drop nameCs.length with
                | q2 :: s6 =>
                  if q2 = q34 || q2 = q39 then
                    match dropWS s6 with
                    | '%' :: '\x7d' :: s8 => some (String.mk nameCs, s8)
                    | _ => none
                  else none
                | [] => none
            else none
          | [] => none
        else none
      | [] => none
    | none => none
  | _ => none

/-- Lazy search of `(.+?)\s*\%\}` for the if condition: take characters
one at a time (never a newline, since `.` has no DOTALL here) and stop
as soon as `\s*\%\}` completes the tag. -/
def ifCondSearch (acc : List Char) : List Char → Option (List Char × List Char)
  | [] => none
  | c :: rest =>
    if c = '\n' then none
    else
      let acc2 := acc ++ [c]
      match matchLit ['%', '\x7d'] (dropWS rest) with
      | some after => some (acc2, after)
      | none => ifCondSearch acc2 rest

/-- Match `\{\%\s*if\s+(.+?)\s*\%\}` at the head of the input,
returning the raw condition text and the remainder. -/
def matchIfOpen (s : List Char) : Option (String × List Char) :=
  match s with
  | '\x7b' :: '%' :: s1 =>
    match matchLit ['i', 'f'] (dropWS s1) with
    | some s3 =>
      match s3 with
      | c :: _ =>
        if isPySpace c then
          match ifCondSearch [] (dropWS s3) with
          | some (cond, rest) => some (String.mk cond, rest)
          | none => none
        else none
      | [] => none
    | none => none
  | _ => none

/-- `re.search` for a headed matcher: earliest position at or after
`pos` where the matcher succeeds, with the match's end position. -/
def searchTagFrom (matchFn : List Char → Option (List Char)) (l : List Char) :
    Nat → Nat → Option (Nat × Nat)
  | 0, _ => none
  | fuel + 1, pos =>
    if l.length < pos then none
    else
      let seg := l.drop pos
      match matchFn seg with
      | some rest => some (pos, pos + (seg.length - rest.length))
      | none => searchTagFrom matchFn l fuel (pos + 1)

/-- `re.search` for the if-open pattern, also reporting the condition. -/
def searchIfOpenFrom (l : List Char) : Nat → Nat → Option (Nat × Nat × String)
  | 0, _ => none
  | fuel + 1, pos =>
    if l.length < pos then none
    else
      let seg := l.drop pos
      match matchIfOpen seg with
      | some (cond, rest) => some (pos, pos + (seg.length - rest.length), cond)
      | none => searchIfOpenFrom l fuel (pos + 1)

/-- Whether a fragment contains an if-open tag (the "no nested if"
check of `_find_next_if_statement`). -/
def hasIfOpen (cs : List Char) : Bool :=
  (searchIfOpenFrom cs (cs.length + 2) 0).isSome

/- ------------------------------------------------------------------
template_engine.py — value lookup and condition evaluation
------------------------------------------------------------------ -/

/-- The dotted-path walk shared by `_get_variable_value` and
`_process_variables`: at each segment the code tries attribute access
first and dictionary access second; for the object-as-dictionary values
of this embedding both collapse to keyed lookup, and every other value
kind has no such segment. -/
def navigatePath : Json → List String → Option Json
  | v, [] => some v
  | .obj kvs, p :: rest =>
    match dictGet kvs p with
    | some v2 => navigatePath v2 rest
    | none => none
  | _, _ :: _ => none

/-- Collapse a JSON `null` result to `none`: Python returns the single
value `None` both for an absent path and for a stored null, and
`_get_variable_value` cannot tell them apart. -/
def pyCanon : Option Json → Option Json
  | some .null => none
  | x => x

/-- Python `s.split('.')` on a single-character separator (kernel-
reducible, unlike `String.splitOn`). -/
def pySplitCharAux (sep : Char) : List Char → List Char → List String
  | acc, [] => [String.mk acc.reverse]
  | acc, c :: rest =>
    if c = sep then String.mk acc.reverse :: pySplitCharAux sep [] rest
    else pySplitCharAux sep (c :: acc) rest

/-- Python `s.split(sep)` for one character, e.g. the dotted-path split. -/
def pySplitChar (sep : Char) (s : String) : List String :=
  pySplitCharAux sep [] s.data

/-- Split at the first occurrence of a separator string: Python
`sep in s` plus `s.split(sep, 1)`.  `none` when the separator does not
occur. -/
def splitOnceAux (sep : List Char) : List Char → List Char → Option (List Char × List Char)
  | acc, [] => none
  | acc, c :: rest =>
    match matchLit sep (c :: rest) with
    | some after => some (acc.reverse, after)
    | none => splitOnceAux sep (c :: acc) rest

/-- First-occurrence split on strings. -/
def splitOnce (sep s : String) : Option (String × String) :=
  (splitOnceAux sep.data [] s.data).map (fun p => (String.mk p.1, String.mk p.2))

/-- Python `str.lower()` (ASCII scope). -/
def pyLower (s : String) : String :=
  String.mk (s.data.map (fun c => if c.isUpper then Char.ofNat (c.toNat + 32) else c))

/-- `SimpleTemplateEngine._get_variable_value`. -/
def get_variable_value (path : String) (ctx : List (String × Json)) : Option Json :=
  let parts := pySplitChar '.' path
  match dictGet ctx (parts.headD "") with
  | none => none
  | some v => pyCanon (navigatePath v parts.tail)

/-- Python `==` between condition operands (`None` is `none`).  Python
makes `True == 1` and `False == 0` hold; container comparison is
approximated as false — no template in the repository and no verified
property compares containers. -/
def pyEqVal : Json → Json → Bool
  | .str a, .str b => a == b
  | .num a, .num b => a == b
  | .bool a, .bool b => a == b
  | .bool a, .num n => (if a then (1 : Int) else 0) == n
  | .num n, .bool a => n == (if a then (1 : Int) else 0)
  | .null, .null => true
  | _, _ => false

/-- Python `==` lifted to possibly-absent operands (`None == None` is true). -/
def pyEq : Option Json → Option Json → Bool
  | none, none => true
  | some a, some b => pyEqVal a b
  | _, _ => false

/-- Python `bool(value)` for a possibly-absent value. -/
def pyTruthyOpt : Option Json → Bool
  | none => false
  | some j => jsonTruthy j

/-- `int(s)` on an already-stripped string: optional sign then digits. -/
def parseIntLit (s : String) : Option Int :=
  let digitsVal : List Char → Option Nat := fun ds =>
    if ds.isEmpty || !(ds.all Char.isDigit) then none
    else some (ds.foldl (fun acc c => acc * 10 + (c.toNat - 48)) 0)
  match s.data with
  | '+' :: ds => (digitsVal ds).map Int.ofNat
  | '-' :: ds => (digitsVal ds).map (fun n => -(Int.ofNat n))
  | ds => (digitsVal ds).map Int.ofNat

/-- Whether a character list is a quoted literal with the given quote
character at both ends (Python's `startswith`/`endswith` pair, which a
single quote character also satisfies). -/
def isQuoted (cs : List Char) (q : Char) : Bool :=
  match cs with
  | [] => false
  | c :: _ => c = q && (cs.getLast? == some q)

/-- `SimpleTemplateEngine._parse_literal_or_variable`.  Float literals
(`'.' in value_str` with a numeric body) are out of the embedding's
scope — no verified property and no repository template uses one; the
non-numeric dotted strings the code sees fall through to the variable
lookup exactly as in Python. -/
def parse_literal_or_variable (s0 : String) (ctx : List (String × Json)) : Option Json :=
  let s := pyStrip s0
  let cs := s.data
  if isQuoted cs q34 || isQuoted cs q39 then
    some (.str (String.mk ((cs.drop 1).dropLast)))
  else
    match (if cs.contains '.' then none else parseIntLit s) with
    | some n => some (.num n)
    | none =>
      if pyLower s = "true" then some (.bool true)
      else if pyLower s = "false" then some (.bool false)
      else get_variable_value s ctx

/-- `SimpleTemplateEngine._evaluate_condition`. -/
def evaluate_condition (cond : String) (ctx : List (String × Json)) : Bool :=
  match splitOnce " == " cond with
  | some (left, right) =>
    pyEq (get_variable_value (pyStrip left) ctx) (parse_literal_or_variable (pyStrip right) ctx)
  | none =>
    match splitOnce " != " cond with
    | some (left, right) =>
      !(pyEq (get_variable_value (pyStrip left) ctx) (parse_literal_or_variable (pyStrip right) ctx))
    | none =>
      pyTruthyOpt (get_variable_value (pyStrip cond) ctx)

/- ------------------------------------------------------------------
template_engine.py — variable substitution
------------------------------------------------------------------ -/

/-- Match the variable pattern
`\{\{\s*([\w\.]+)(?:\s*\|\s*([^}]+))?\s*\}\}` at the head of the input,
returning the dotted path, the (stripped) default clause if present,
and the remainder.  The default clause is the maximal run of
non-`\x7d` characters after the `|`; the regex only completes when the
two closing braces follow it directly, and whitespace shuffling between
`[^}]+` and the trailing `\s*` is erased by the `.strip()` the code
applies to the captured group. -/
def matchVarTag (s : List Char) : Option (String × Option String × List Char) :=
  match s with
  | '\x7b' :: '\x7b' :: s1 =>
    let s2 := dropWS s1
    let pathCs := s2.takeWhile isVarChar
    if pathCs.isEmpty then none
    else
      let s3 := s2.drop pathCs.length
      let noDefault : Option (String × Option String × List Char) :=
        match dropWS s3 with
        | '\x7d' :: '\x7d' :: after => some (String.mk pathCs, none, after)
        | _ => none
      match dropWS s3 with
      | '|' :: s5 =>
        let defCs := s5.takeWhile (fun c => c != '\x7d')
        if defCs.isEmpty then noDefault
        else
          match s5.drop defCs.length with
          | '\x7d' :: '\x7d' :: after =>
            some (String.mk pathCs, some (pyStrip (String.mk defCs)), after)
          | _ => noDefault
      | _ => noDefault
  | _ => none

/-- The dotted-path resolution inside `replace_variable`: root lookup in
the context, then segment navigation.  The source reports the two
failure points separately but with identical fallbacks. -/
def resolveVar (ctx : List (String × Json)) (path : String) : Option Json :=
  let parts := pySplitChar '.' path
  match dictGet ctx (parts.headD "") with
  | none => none
  | some v => navigatePath v parts.tail

/-- The `replace_variable` callback of `_process_variables`: default
clause on an absent value, the re-rendered placeholder
`\x7b\x7b path \x7d\x7d` on an absent value without a default,
`true`/`false` for booleans, empty string for null, generic string
conversion otherwise. -/
def replaceVariable (ctx : List (String × Json)) (path : String) (dflt : Option String) :
    String :=
  match resolveVar ctx path with
  | none =>
    match dflt with
    | some d => d
    | none => "\x7b\x7b " ++ path ++ " \x7d\x7d"
  | some v =>
    match v with
    | .null => ""
    | .bool b => if b then "true" else "false"
    | v2 => pyStr v2

/-- `re.sub` scan of the variable pattern: try a match at every
position, emit the replacement and continue after the match, never
rescanning replacement text.  Fuel is the input length plus one; every
step consumes at least one character. -/
def subVarsAux (ctx : List (String × Json)) : Nat → List Char → List Char
  | 0, l => l
  | _ + 1, [] => []
  | fuel + 1, c :: rest =>
    match matchVarTag (c :: rest) with
    | some (path, dflt, after) => (replaceVariable ctx path dflt).data ++ subVarsAux ctx fuel after
    | none => c :: subVarsAux ctx fuel rest

/-- `SimpleTemplateEngine._process_variables` on a character list. -/
def processVarsL (ctx : List (String × Json)) (l : List Char) : List Char :=
  subVarsAux ctx (l.length + 1) l

/-- `SimpleTemplateEngine._process_variables`. -/
def process_variables (ctx : List (String × Json)) (content : String) : String :=
  String.mk (processVarsL ctx content.data)

/- ------------------------------------------------------------------
template_engine.py — conditionals (innermost-first while loop)
------------------------------------------------------------------ -/

/-- Earliest candidate of the matching scan (tag kind, start, end);
kinds are 0 = if, 1 = else, 2 = endif.  Positions of distinct tags can
never coincide, and Python's stable sort keeps the earlier list entry
on equal keys. -/
def minByStart : List (Nat × Nat × Nat) → Option (Nat × Nat × Nat)
  | [] => none
  | x :: xs =>
    match minByStart xs with
    | none => some x
    | some y => if y.2.1 < x.2.1 then some y else some x

/-- The matching-end scan of `_find_next_if_statement`: starting just
after an if-open tag with `ifCount = 1`, walk if/else/endif tags,
counting nesting, recording the first top-level `else`, and stop at the
balancing `endif` (start, end, else position).  `none` mirrors the
`while` loop running out of input or candidates.  Fuel: the position
strictly increases each round. -/
def scanIfBody (l : List Char) : Nat → Nat → Nat → Option Nat → Option (Nat × Nat × Option Nat)
  | 0, _, _, _ => none
  | fuel + 1, pos, ifCount, elsePos =>
    if pos < l.length ∧ 0 < ifCount then
      let nIf := searchIfOpenFrom l (l.length + 2) pos
      let nElse :=
        match elsePos with
        | none => searchTagFrom (matchSimpleTag ['e', 'l', 's', 'e']) l (l.length + 2) pos
        | some _ => none
      let nEndif := searchTagFrom (matchSimpleTag ['e', 'n', 'd', 'i', 'f']) l (l.length + 2) pos
      let cands :=
        (match nIf with
         | some (s, e, _) => [(0, s, e)]
         | none => []) ++
        (match nElse with
         | some (s, e) => if ifCount = 1 then [(1, s, e)] else []
         | none => []) ++
        (match nEndif with
         | some (s, e) => [(2, s, e)]
         | none => [])
      match minByStart cands with
      | none => none
      | some (t, ts, te) =>
        if t = 0 then scanIfBody l fuel te (ifCount + 1) elsePos
        else if t = 1 then scanIfBody l fuel te ifCount (some ts)
        else
          if ifCount = 1 then some (ts, te, elsePos)
          else scanIfBody l fuel te (ifCount - 1) elsePos
    else none

/-- `SimpleTemplateEngine._find_next_if_statement`: iterate over the
successive (non-overlapping) if-open matches; for each, find the
balancing `endif` and slice the branches — the else branch starts the
hard-coded 10 characters (`len("\x7b% else %\x7d")`) after the else
tag's start, whatever the tag's actual spelling — and return the first
whose branches contain no further if-open tag.  Fuel: the scan position
strictly advances past each if-open tag. -/
def findNextIfAux (l : List Char) : Nat → Nat → Option (Nat × Nat × String × List Char × List Char)
  | 0, _ => none
  | fuel + 1, pos =>
    match searchIfOpenFrom l (l.length + 2) pos with
    | none => none
    | some (s, e, cond) =>
      match scanIfBody l (l.length + 2) e 1 none with
      | some (endifStart, endifEnd, elsePos) =>
        let contentEnd :=
          match elsePos with
          | some ep => ep
          | none => endifStart
        let ifC := (l.take contentEnd).drop e
        let elseC :=
          match elsePos with
          | some ep => (l.take endifStart).drop (ep + 10)
          | none => []
        if hasIfOpen ifC || hasIfOpen elseC then findNextIfAux l fuel e
        else some (s, endifEnd, pyStrip cond, ifC, elseC)
      | none => findNextIfAux l fuel e

/-- One lookup of the innermost if statement. -/
def findNextIf (l : List Char) : Option (Nat × Nat × String × List Char × List Char) :=
  findNextIfAux l (l.length + 2) 0

/-- The `while True` loop of `_process_if_statements`: replace the
innermost if construct by the chosen branch and rescan.  Every
iteration splices a proper sub-segment of the replaced region back in,
so the content shrinks by at least the two tag lengths and fuel
`length + 1` is never exhausted. -/
def processIfAux (ctx : List (String × Json)) : Nat → List Char → List Char
  | 0, l => l
  | fuel + 1, l =>
    match findNextIf l with
    | none => l
    | some (s, e, cond, ifC, elseC) =>
      let repl := if evaluate_condition cond ctx then ifC else elseC
      processIfAux ctx fuel ((l.take s) ++ repl ++ (l.drop e))

/-- `SimpleTemplateEngine._process_if_statements` on a character list. -/
def processIfL (ctx : List (String × Json)) (l : List Char) : List Char :=
  processIfAux ctx (l.length + 1) l

/-- `SimpleTemplateEngine._process_if_statements`. -/
def process_if_statements (ctx : List (String × Json)) (content : String) : String :=
  String.mk (processIfL ctx content.data)

/- ------------------------------------------------------------------
template_engine.py — for loops
------------------------------------------------------------------ -/

/-- The `loop` metadata object of an iteration. -/
def loopInfo (index : Nat) : Json :=
  .obj [("index", .num index), ("index0", .num index), ("index1", .num (index + 1))]

/-- The body of `replace_for_loop` once the iterable is resolved: for
each element, a fresh copy of the context gains the loop variable and
the `loop` object, then the body runs through if processing and
variable substitution; outputs are concatenated.  Strings are rejected
explicitly; numbers, booleans and null have no `__iter__`; iterating a
Python dict yields its keys. -/
def renderForLoop (ctx : List (String × Json)) (varName iterName : String)
    (body : List Char) : List Char :=
  match dictGet ctx iterName with
  | none => []
  | some v =>
    let items : Option (List Json) :=
      match v with
      | .arr xs => some xs
      | .obj kvs => some (kvs.map (fun kv => Json.str kv.1))
      | _ => none
    match items with
    | none => []
    | some xs =>
      (xs.enum.map (fun p =>
        let lctx := dictInsert (dictInsert ctx varName p.2) "loop" (loopInfo p.1)
        processVarsL lctx (processIfL lctx body))).flatten

/-- `re.sub` scan of the for pattern (`.*?` stops at the first
`endfor`); an open tag without a matching end tag fails and the scan
advances one character, as the regex engine does. -/
def subForAux (ctx : List (String × Json)) : Nat → List Char → List Char
  | 0, l => l
  | _ + 1, [] => []
  | fuel + 1, c :: rest =>
    match matchForOpen (c :: rest) with
    | some (varName, iterName, afterOpen) =>
      match searchTagFrom (matchSimpleTag ['e', 'n', 'd', 'f', 'o', 'r']) afterOpen
          (afterOpen.length + 2) 0 with
      | some (s, e) =>
        renderForLoop ctx varName iterName (afterOpen.take s) ++ subForAux ctx fuel (afterOpen.drop e)
      | none => c :: subForAux ctx fuel rest
    | none => c :: subForAux ctx fuel rest

/-- `SimpleTemplateEngine._process_for_loops`. -/
def process_for_loops (ctx : List (String × Json)) (content : String) : String :=
  String.mk (subForAux ctx (content.data.length + 1) content.data)

/- ------------------------------------------------------------------
template_engine.py — inheritance chain and blocks
------------------------------------------------------------------ -/

/-- `SimpleTemplateEngine._load_template`; the template directory is the
store itself, a missing file raises `Template not found`. -/
def load_template (store : List (String × String)) (name : String) : Except String String :=
  match dictGet store name with
  | some c => .ok c
  | none => .error ("Template not found: " ++ name)

/-- `re.search` of the extends pattern: first match anywhere. -/
def findExtendsAux : Nat → List Char → Option String
  | 0, _ => none
  | _ + 1, [] => none
  | fuel + 1, c :: rest =>
    match matchExtends (c :: rest) with
    | some (name, _) => some name
    | none => findExtendsAux fuel rest

/-- First `extends` directive of a template, if any. -/
def find_extends (content : String) : Option String :=
  findExtendsAux (content.data.length + 1) content.data

/-- `extends_pattern.sub('', content)`. -/
def removeExtendsAux : Nat → List Char → List Char
  | 0, l => l
  | _ + 1, [] => []
  | fuel + 1, c :: rest =>
    match matchExtends (c :: rest) with
    | some (_, after) => removeExtendsAux fuel after
    | none => c :: removeExtendsAux fuel rest

/-- Strip all `extends` directives from a template. -/
def remove_extends (content : String) : String :=
  String.mk (removeExtendsAux (content.data.length + 1) content.data)

/-- `block_pattern.findall`: successive non-overlapping block regions,
each the lazy span from an open tag to the first `endblock`. -/
def findBlocksAux : Nat → List Char → List (String × String)
  | 0, _ => []
  | _ + 1, [] => []
  | fuel + 1, c :: rest =>
    match matchBlockOpen (c :: rest) with
    | some (name, afterOpen) =>
      match searchTagFrom (matchSimpleTag ['e', 'n', 'd', 'b', 'l', 'o', 'c', 'k']) afterOpen
          (afterOpen.length + 2) 0 with
      | some (s, e) => (name, String.mk (afterOpen.take s)) :: findBlocksAux fuel (afterOpen.drop e)
      | none => findBlocksAux fuel rest
    | none => findBlocksAux fuel rest

/-- `SimpleTemplateEngine._extract_blocks`: collect the matches into a
dictionary, stripping each body; a repeated name keeps the last match. -/
def extract_blocks (content : String) : List (String × String) :=
  (findBlocksAux (content.data.length + 1) content.data).foldl
    (fun d nb => dictInsert d nb.1 (pyStrip nb.2)) []

/-- `SimpleTemplateEngine._apply_blocks`: substitute every block region
of the root by its collected content, falling back to the region's own
stripped default body. -/
def applyBlocksAux (blocks : List (String × String)) : Nat → List Char → List Char
  | 0, l => l
  | _ + 1, [] => []
  | fuel + 1, c :: rest =>
    match matchBlockOpen (c :: rest) with
    | some (name, afterOpen) =>
      match searchTagFrom (matchSimpleTag ['e', 'n', 'd', 'b', 'l', 'o', 'c', 'k']) afterOpen
          (afterOpen.length + 2) 0 with
      | some (s, e) =>
        let repl :=
          match dictGet blocks name with
          | some b => b.data
          | none => pyStripL (afterOpen.take s)
        repl ++ applyBlocksAux blocks fuel (afterOpen.drop e)
      | none => c :: applyBlocksAux blocks fuel rest
    | none => c :: applyBlocksAux blocks fuel rest

/-- Apply collected blocks to the root template. -/
def apply_blocks (root : String) (blocks : List (String × String)) : String :=
  String.mk (applyBlocksAux blocks (root.data.length + 1) root.data)

/-- The `while current_template` loop of
`_build_inheritance_chain`: a revisit raises circular inheritance, a
missing template raises not-found, otherwise follow `extends`.  Fuel:
every successfully visited name is a distinct key of the store, so
`store.length + 1` rounds always suffice (`buildChainAux_isSome`). -/
def buildChainAux (store : List (String × String)) :
    Nat → String → List String → List String → Option (Except String (List String))
  | 0, _, _, _ => none
  | fuel + 1, current, visited, chain =>
    if current ∈ visited then
      some (.error ("Circular inheritance detected: " ++ current))
    else
      match dictGet store current with
      | none => some (.error ("Template not found: " ++ current))
      | some content =>
        match find_extends content with
        | some parent => buildChainAux store fuel parent (current :: visited) (chain ++ [current])
        | none => some (.ok (chain ++ [current]))

/-- `SimpleTemplateEngine._build_inheritance_chain`. -/
def build_inheritance_chain (store : List (String × String)) (name : String) :
    Option (Except String (List String)) :=
  buildChainAux store (store.length + 1) name [] []

/-- The per-template body of `_collect_blocks_from_chain`'s loop. -/
def collectBlocksAux (store : List (String × String)) :
    List String → List (String × String) → Except String (List (String × String))
  | [], acc => .ok acc
  | n :: rest, acc =>
    match load_template store n with
    | .error e => .error e
    | .ok content =>
      let tblocks := extract_blocks (remove_extends content)
      collectBlocksAux store rest (tblocks.foldl (fun d nb => dictInsert d nb.1 nb.2) acc)

/-- `SimpleTemplateEngine._collect_blocks_from_chain`: walk the chain
from root to child so that more derived definitions overwrite. -/
def collect_blocks_from_chain (store : List (String × String)) (chain : List String) :
    Except String (List (String × String)) :=
  collectBlocksAux store chain.reverse []

/-- The `try` body of `SimpleTemplateEngine.render_template`: chain,
blocks, root, block substitution, loops, conditionals, variables.  The
two defensive errors are unreachable: the chain fuel always suffices
(`buildChainAux_isSome`) and a built chain is never empty. -/
def render_template_inner (store : List (String × String)) (name : String)
    (ctx : List (String × Json)) : Except String String :=
  match build_inheritance_chain store name with
  | none => .error "inheritance chain fuel exhausted"
  | some (.error e) => .error e
  | some (.ok chain) =>
    match collect_blocks_from_chain store chain with
    | .error e => .error e
    | .ok all_blocks =>
      match chain.getLast? with
      | none => .error "empty inheritance chain"
      | some root =>
        match load_template store root with
        | .error e => .error e
        | .ok root_content =>
          .ok (process_variables ctx
                (process_if_statements ctx
                  (process_for_loops ctx
                    (apply_blocks root_content all_blocks))))

/-- `SimpleTemplateEngine.render_template`: any internal failure
degrades to the inline HTML error fragment. -/
def render_template (store : List (String × String)) (name : String)
    (ctx : List (String × Json)) : String :=
  match render_template_inner store name ctx with
  | .ok s => s
  | .error e => "<h1>Template Error</h1><p>Error rendering template: " ++ e ++ "</p>"

/- ------------------------------------------------------------------
Claim theorems
------------------------------------------------------------------ -/

/-- C1: with authentication enabled, a GET whose parsed path is not under
`/static/` and is none of `/login`, `/logged_out_page`, `/logout`, and
for which no user resolves from the `auth_token` cookie, is answered
401 with the fixed body (no state leaks into it) when the path starts
with `/api/`, and otherwise 302 to `/login?next=` followed by the
url-encoded original request target. -/
theorem c1_unauthenticated_get_gate (now : Nat) (req : GetRequest) (m : AuthManager)
    (hstatic : pyStartswith (urlparsePath req.rawPath) "/static/" = false)
    (hlogin : urlparsePath req.rawPath ≠ "/login")
    (hlop : urlparsePath req.rawPath ≠ "/logged_out_page")
    (hlogout : urlparsePath req.rawPath ≠ "/logout")
    (huser : (resolve_user_from_cookies now req.cookies m).1 = none) :
    (pyStartswith (urlparsePath req.rawPath) "/api/" = true →
      do_GET true now req m =
        (.respond 401 [("Content-type", "text/html")]
          "Unauthorized: Please log in to access this resource.",
         (resolve_user_from_cookies now req.cookies m).2)) ∧
    (pyStartswith (urlparsePath req.rawPath) "/api/" = false →
      do_GET true now req m =
        (.respond 302 [("Location", "/login?next=" ++ quote req.rawPath)] "",
         (resolve_user_from_cookies now req.cookies m).2)) := by
  rcases hr : resolve_user_from_cookies now req.cookies m with ⟨u, m2⟩
  rw [hr] at huser
  subst huser
  refine ⟨fun hapi => ?_, fun hapi => ?_⟩ <;>
    simp only [do_GET, if_true, if_neg hlogout,
      if_pos (And.intro hstatic (And.intro hlogin hlop)), hr, hapi, if_false] <;>
    simp

/-- Witness for C1 at a concrete request and manager. -/
theorem c1_unauthenticated_get_gate_witness :
    do_GET true 0 { rawPath := "/api/data?x=1", cookies := [] }
        ⟨[], [], 0, none, 24, 10, 30⟩ =
      (.respond 401 [("Content-type", "text/html")]
        "Unauthorized: Please log in to access this resource.",
       ⟨[], [], 0, none, 24, 10, 30⟩) := by
  have h := (c1_unauthenticated_get_gate 0 { rawPath := "/api/data?x=1", cookies := [] }
      ⟨[], [], 0, none, 24, 10, 30⟩ (by decide) (by decide) (by decide) (by decide) rfl).1
      (by decide)
  exact h

/-- C2: with authentication enabled, a POST to a registered `/api/*`
path other than `/api/login` is dispatched straight to the registered
callback and answered with the callback's payload and `status or 200`,
leaving the authentication state untouched and reading nothing from it:
the outcome is the same for any two manager states. -/
theorem c2_post_dispatch_no_session_check (now : Nat) (hash : String → String) (sid : String)
    (apis : List PostApi) (req : PostRequest) (m m2 : AuthManager) (api : PostApi)
    (data payload : Json) (status : Option Nat)
    (hne : urlparsePath req.rawPath ≠ "/api/login")
    (happ : pyStartswith (urlparsePath req.rawPath) "/api/" = true)
    (hfind : apis.find? (fun a => a.urls.contains (urlparsePath req.rawPath)) = some api)
    (hbody : req.body = some data)
    (hcb : api.callback data req.headers = .ok (payload, status)) :
    do_POST true now hash sid apis req m =
      (.json (statusOr200 status)
        [("Content-type", "application/json"), ("Access-Control-Allow-Origin", "*")]
        payload, m) ∧
    (do_POST true now hash sid apis req m).1 = (do_POST true now hash sid apis req m2).1 := by
  have key : ∀ mx : AuthManager, do_POST true now hash sid apis req mx =
      (.json (statusOr200 status)
        [("Content-type", "application/json"), ("Access-Control-Allow-Origin", "*")]
        payload, mx) := by
    intro mx
    simp only [do_POST, if_neg hne, if_pos happ, handle_api_post_request]
    rw [hfind, hbody]
    simp [hcb]
  exact ⟨key m, by rw [key m, key m2]⟩

/-- Witness for C2 at a concrete endpoint, request and pair of manager
states (one with a session cookie context, one without). -/
theorem c2_post_dispatch_no_session_check_witness :
    do_POST true 0 (fun s => s) "sid"
        [{ urls := ["/api/events"], callback := fun _ _ => .ok (.str "stored", none) }]
        { rawPath := "/api/events", headers := [("Cookie", "auth_token=zz")],
          body := some (.obj [("event", .str "e1")]) }
        ⟨[], [], 0, none, 24, 10, 30⟩ =
      (.json 200 [("Content-type", "application/json"), ("Access-Control-Allow-Origin", "*")]
        (.str "stored"),
       ⟨[], [], 0, none, 24, 10, 30⟩) := by
  have h := (c2_post_dispatch_no_session_check 0 (fun s => s) "sid"
      [{ urls := ["/api/events"], callback := fun _ _ => .ok (.str "stored", none) }]
      { rawPath := "/api/events", headers := [("Cookie", "auth_token=zz")],
        body := some (.obj [("event", .str "e1")]) }
      ⟨[], [], 0, none, 24, 10, 30⟩ ⟨[], [], 5, none, 24, 10, 30⟩
      { urls := ["/api/events"], callback := fun _ _ => .ok (.str "stored", none) }
      (.obj [("event", .str "e1")]) (.str "stored") none
      (by decide) (by decide) rfl rfl rfl).1
  exact h

/-- Iterated `authenticate` calls with fixed (wrong) credentials at a
fixed clock reading — the "N consecutive failed attempts" experiment of
the lockout property. -/
def authFailIter (now : Nat) (hash : String → String) (sid : String)
    (username password : String) : Nat → AuthManager → AuthManager
  | 0, m => m
  | k + 1, m =>
    authFailIter now hash sid username password k
      (authenticate now hash sid m username password true).2

/-- One failing `authenticate` call on an unlocked manager: the attempt
is counted and the lock is set exactly when the threshold is reached. -/
theorem authenticate_wrong_state (now : Nat) (hash : String → String) (sid : String)
    (m : AuthManager) (u p : String)
    (hl : m.lock_until = none)
    (hw : m.users.find? (fun x => x.username == u && x.hashed_password == p) = none) :
    (authenticate now hash sid m u p true).2 =
      if m.lock_after_failed_attempts ≤ m.failed_attempts + 1 then
        { m with failed_attempts := m.failed_attempts + 1,
                 lock_until := some (now + m.lock_after_failed_attempts_time_minutes) }
      else { m with failed_attempts := m.failed_attempts + 1 } := by
  simp only [authenticate, is_locked, hl, if_true]
  rw [hw]
  simp only [authRegisterFailure]
  split <;> simp [hl]

/-- After exactly enough failing attempts to reach the threshold, the
manager ends locked until `now` plus the configured lockout duration,
with `failed_attempts` at the threshold. -/
theorem authFailIter_locks (now : Nat) (hash : String → String) (sid : String)
    (u p : String) :
    ∀ (k : Nat) (m : AuthManager), m.lock_until = none →
      m.users.find? (fun x => x.username == u && x.hashed_password == p) = none →
      m.failed_attempts + k = m.lock_after_failed_attempts → 1 ≤ k →
      authFailIter now hash sid u p k m =
        { m with failed_attempts := m.lock_after_failed_attempts,
                 lock_until := some (now + m.lock_after_failed_attempts_time_minutes) }
  | 0, _, _, _, _, hk => absurd hk (by omega)
  | 1, m, hl, hw, hth, _ => by
    simp only [authFailIter]
    rw [authenticate_wrong_state now hash sid m u p hl hw, if_pos (by omega)]
    rw [show m.failed_attempts + 1 = m.lock_after_failed_attempts from hth]
  | k + 2, m, hl, hw, hth, _ => by
    simp only [authFailIter]
    rw [authenticate_wrong_state now hash sid m u p hl hw, if_neg (by omega)]
    exact authFailIter_locks now hash sid u p (k + 1)
      { m with failed_attempts := m.failed_attempts + 1 } hl hw (by simp; omega) (by omega)

/-- C3: starting from `failed_attempts = 0` and no lock, N consecutive
failed `authenticate` calls (N the configured threshold) leave
`isLocked` true before the lock expires, and a subsequent
correct-credential `authenticate` call made before expiry returns
`none` and leaves the whole state — in particular `failed_attempts` —
unchanged. -/
theorem c3_lockout_threshold (now now2 : Nat) (hash : String → String) (sid sid2 : String)
    (wu wp cu cp : String) (m mN : AuthManager)
    (h0 : m.failed_attempts = 0)
    (hl : m.lock_until = none)
    (hN : 1 ≤ m.lock_after_failed_attempts)
    (hw : m.users.find? (fun x => x.username == wu && x.hashed_password == wp) = none)
    (hmN : mN = authFailIter now hash sid wu wp m.lock_after_failed_attempts m)
    (hc : (mN.users.find? (fun x => x.username == cu && x.hashed_password == hash cp)).isSome = true)
    (hnow : now2 < now + m.lock_after_failed_attempts_time_minutes) :
    (is_locked now2 mN).1 = true ∧
    authenticate now2 hash sid2 mN cu cp false = (none, mN) ∧
    (authenticate now2 hash sid2 mN cu cp false).2.failed_attempts = mN.failed_attempts := by
  have hfix : mN = { m with failed_attempts := m.lock_after_failed_attempts,
                            lock_until := some (now + m.lock_after_failed_attempts_time_minutes) } := by
    rw [hmN]
    exact authFailIter_locks now hash sid wu wp m.lock_after_failed_attempts m hl hw
      (by omega) hN
  have hl2 : is_locked now2 mN = (true, mN) := by
    rw [hfix]
    simp only [is_locked]
    rw [if_neg (by omega)]
  have hauth : authenticate now2 hash sid2 mN cu cp false = (none, mN) := by
    simp only [authenticate, hl2]
  exact ⟨by rw [hl2], hauth, by rw [hauth]⟩

/-- Witness for C3: threshold 3, lockout 30 minutes, one stored user,
three wrong-password attempts at time 0, then a correct-credential
attempt at time 5. -/
theorem c3_lockout_threshold_witness :
    (is_locked 5 (authFailIter 0 (fun s => s ++ "!") "s1" "admin" "bad" 3
        ⟨[⟨"admin", "pw!"⟩], [], 0, none, 24, 3, 30⟩)).1 = true ∧
    authenticate 5 (fun s => s ++ "!") "s2"
        (authFailIter 0 (fun s => s ++ "!") "s1" "admin" "bad" 3
          ⟨[⟨"admin", "pw!"⟩], [], 0, none, 24, 3, 30⟩) "admin" "pw" false =
      (none, authFailIter 0 (fun s => s ++ "!") "s1" "admin" "bad" 3
        ⟨[⟨"admin", "pw!"⟩], [], 0, none, 24, 3, 30⟩) ∧
    (authenticate 5 (fun s => s ++ "!") "s2"
        (authFailIter 0 (fun s => s ++ "!") "s1" "admin" "bad" 3
          ⟨[⟨"admin", "pw!"⟩], [], 0, none, 24, 3, 30⟩) "admin" "pw" false).2.failed_attempts =
      (authFailIter 0 (fun s => s ++ "!") "s1" "admin" "bad" 3
        ⟨[⟨"admin", "pw!"⟩], [], 0, none, 24, 3, 30⟩).failed_attempts := by
  exact c3_lockout_threshold 0 5 (fun s => s ++ "!") "s1" "s2" "admin" "bad" "admin" "pw"
    ⟨[⟨"admin", "pw!"⟩], [], 0, none, 24, 3, 30⟩
    (authFailIter 0 (fun s => s ++ "!") "s1" "admin" "bad" 3
      ⟨[⟨"admin", "pw!"⟩], [], 0, none, 24, 3, 30⟩)
    rfl rfl (by decide) (by decide) rfl (by decide) (by decide)

/-- A key just removed from a dictionary no longer resolves. -/
theorem find?_filter_ne {α : Type} (d : List (String × α)) (k : String) :
    (d.filter (fun p => p.1 != k)).find? (fun p => p.1 == k) = none := by
  rw [List.find?_eq_none]
  intro p hp
  have h2 := List.of_mem_filter hp
  simp only [bne_iff_ne, ne_eq] at h2
  simp [h2]

/-- `dictRemove` really deletes the binding. -/
theorem dictGet_dictRemove {α : Type} (d : List (String × α)) (k : String) :
    dictGet (dictRemove d k) k = none := by
  simp [dictGet, dictRemove, find?_filter_ne]

/-- C4: `retrieve_user_by_session_id` returns `none` on an unknown id;
deletes the session and returns `none` when the time since
`last_access` exceeds the configured timeout; and otherwise bumps
`last_access` to the current time and returns the owning user. -/
theorem c4_validate_spec (now : Nat) (sid : String) (m : AuthManager) :
    (dictGet m.sessions sid = none → retrieve_user_by_session_id now sid m = (none, m)) ∧
    (∀ s : Session, dictGet m.sessions sid = some s →
      60 * m.session_timeout_hours < now - s.last_access →
      retrieve_user_by_session_id now sid m =
        (none, { m with sessions := dictRemove m.sessions sid }) ∧
      dictGet (dictRemove m.sessions sid) sid = none) ∧
    (∀ s : Session, dictGet m.sessions sid = some s →
      ¬(60 * m.session_timeout_hours < now - s.last_access) →
      retrieve_user_by_session_id now sid m =
        (some s.user, { m with sessions := dictInsert m.sessions sid { s with last_access := now } })) := by
  refine ⟨fun h => ?_, fun s hs hexp => ⟨?_, dictGet_dictRemove m.sessions sid⟩,
    fun s hs hval => ?_⟩
  · simp [retrieve_user_by_session_id, h]
  · simp [retrieve_user_by_session_id, hs, hexp]
  · simp [retrieve_user_by_session_id, hs, hval]

/-- Witness for C4: a live session looked up before its timeout. -/
theorem c4_validate_spec_witness :
    retrieve_user_by_session_id 5 "tok"
        ⟨[], [("tok", ⟨⟨"u", "h"⟩, "tok", 0, 0⟩)], 0, none, 24, 10, 30⟩ =
      (some ⟨"u", "h"⟩,
       ⟨[], [("tok", ⟨⟨"u", "h"⟩, "tok", 0, 5⟩)], 0, none, 24, 10, 30⟩) := by
  have h := (c4_validate_spec 5 "tok"
      ⟨[], [("tok", ⟨⟨"u", "h"⟩, "tok", 0, 0⟩)], 0, none, 24, 10, 30⟩).2.2
      ⟨⟨"u", "h"⟩, "tok", 0, 0⟩ rfl (by decide)
  rw [h]
  rfl

/-- C5 counterexample: the identical login body POSTed to `/login` and
to `/api/login` produces a 404 in the first case and the login
handler's 200 success response in the second — the two paths are not
handled identically. -/
theorem c5_counterexample :
    (do_POST true 0 (fun s => s) "sid1" []
        { rawPath := "/login", headers := [],
          body := some (.obj [("username", .str "u"), ("password", .str "pw")]) }
        ⟨[⟨"u", "pw"⟩], [], 0, none, 24, 10, 30⟩).1 = .err 404 "Endpoint not found" ∧
    (do_POST true 0 (fun s => s) "sid1" []
        { rawPath := "/api/login", headers := [],
          body := some (.obj [("username", .str "u"), ("password", .str "pw")]) }
        ⟨[⟨"u", "pw"⟩], [], 0, none, 24, 10, 30⟩).1 =
      .json 200 [("Content-type", "application/json"),
                 ("Set-Cookie", "auth_token=sid1; Path=/; HttpOnly")]
        (.obj [("success", .bool true), ("message", .str "Login successful"),
               ("redirect", .str "/")]) ∧
    PostOutcome.err 404 "Endpoint not found" ≠
      PostOutcome.json 200 [("Content-type", "application/json"),
                            ("Set-Cookie", "auth_token=sid1; Path=/; HttpOnly")]
        (.obj [("success", .bool true), ("message", .str "Login successful"),
               ("redirect", .str "/")]) :=
  ⟨rfl, rfl, fun h => PostOutcome.noConfusion h⟩

/-- C5 amended: only `/api/login` reaches the login handler; a POST to
`/login` is answered by the 404 branch of `do_POST`. -/
theorem c5_amended (now : Nat) (hash : String → String) (sid : String) (apis : List PostApi)
    (req : PostRequest) (m : AuthManager) :
    (urlparsePath req.rawPath = "/login" →
      do_POST true now hash sid apis req m = (.err 404 "Endpoint not found", m)) ∧
    (urlparsePath req.rawPath = "/api/login" →
      do_POST true now hash sid apis req m = handle_login_post now hash sid req.body m) := by
  constructor
  · intro h
    simp only [do_POST, h]
    rw [if_neg (by decide), if_neg (by decide)]
  · intro h
    simp only [do_POST, h]
    simp

/-- Witness for C5's amended claim at a concrete request. -/
theorem c5_amended_witness :
    do_POST true 0 (fun s => s) "s" [] { rawPath := "/login", headers := [], body := none }
        ⟨[], [], 0, none, 24, 10, 30⟩ =
      (.err 404 "Endpoint not found", ⟨[], [], 0, none, 24, 10, 30⟩) :=
  (c5_amended 0 (fun s => s) "s" [] { rawPath := "/login", headers := [], body := none }
    ⟨[], [], 0, none, 24, 10, 30⟩).1 rfl

/-- C6 counterexample: a user whose stored hash is `hash "pw"`.  A call
passing only username and password rejects the raw password `"pw"`
(comparing it unhashed), while an explicit `password_is_hashed := false`
call — the behavior the claim ascribes to the default — accepts it: the
third parameter does not default to false. -/
theorem c6_counterexample :
    (authenticate_default 0 (fun s => s ++ "#") "sid"
        ⟨[⟨"u", "pw#"⟩], [], 0, none, 24, 10, 30⟩ "u" "pw").1 = none ∧
    (authenticate 0 (fun s => s ++ "#") "sid"
        ⟨[⟨"u", "pw#"⟩], [], 0, none, 24, 10, 30⟩ "u" "pw" false).1 =
      some (⟨"u", "pw#"⟩, "sid") ∧
    (authenticate_default 0 (fun s => s ++ "#") "sid"
        ⟨[⟨"u", "pw#"⟩], [], 0, none, 24, 10, 30⟩ "u" "pw").1 ≠
      (authenticate 0 (fun s => s ++ "#") "sid"
        ⟨[⟨"u", "pw#"⟩], [], 0, none, 24, 10, 30⟩ "u" "pw" false).1 :=
  ⟨rfl, rfl, by decide⟩

/-- `is_locked` never touches the user list. -/
theorem is_locked_users (now : Nat) (m : AuthManager) :
    ((is_locked now m).2).users = m.users := by
  unfold is_locked
  split
  · rfl
  · split <;> rfl

/-- C6 amended: the third parameter defaults to true, so a call passing
only username and password treats the password as already hashed: the
hash function is never applied (the result is independent of it) and,
on an unlocked manager, the call succeeds exactly when some stored user
matches the username with stored hash equal to the raw `password`
argument itself. -/
theorem c6_amended (now : Nat) (hash hash2 : String → String) (sid : String)
    (m : AuthManager) (u p : String)
    (hlock : (is_locked now m).1 = false) :
    authenticate_default now hash sid m u p = authenticate_default now hash2 sid m u p ∧
    (authenticate_default now hash sid m u p).1.isSome =
      (m.users.find? (fun x => x.username == u && x.hashed_password == p)).isSome := by
  rcases hil : is_locked now m with ⟨b, m1⟩
  have hb : b = false := by rw [hil] at hlock; exact hlock
  subst hb
  have husers : m1.users = m.users := by
    have h2 := is_locked_users now m
    rw [hil] at h2
    exact h2
  have key : ∀ h' : String → String, authenticate_default now h' sid m u p =
      (match m.users.find? (fun x => x.username == u && x.hashed_password == p) with
       | some usr =>
         (some (usr, sid),
          { m1 with sessions := dictInsert m1.sessions sid ⟨usr, sid, now, now⟩,
                    failed_attempts := 0 })
       | none => authRegisterFailure now m1) := by
    intro h'
    simp only [authenticate_default, authenticate, hil, if_true, husers]
  refine ⟨by rw [key hash, key hash2], ?_⟩
  rw [key hash]
  rcases hf : m.users.find? (fun x => x.username == u && x.hashed_password == p) with _ | usr
  · rw [hf]
    simp only [authRegisterFailure]
    split
    · rfl
    · rfl
  · rw [hf]
    rfl

/-- Witness for C6's amended claim: two different hash functions, one
stored user whose stored hash equals the raw password passed. -/
theorem c6_amended_witness :
    authenticate_default 3 (fun s => s ++ "#") "sid"
        ⟨[⟨"u", "pw"⟩], [], 0, none, 24, 10, 30⟩ "u" "pw" =
      authenticate_default 3 (fun _ => "other") "sid"
        ⟨[⟨"u", "pw"⟩], [], 0, none, 24, 10, 30⟩ "u" "pw" ∧
    (authenticate_default 3 (fun s => s ++ "#") "sid"
        ⟨[⟨"u", "pw"⟩], [], 0, none, 24, 10, 30⟩ "u" "pw").1.isSome =
      ((⟨[⟨"u", "pw"⟩], [], 0, none, 24, 10, 30⟩ : AuthManager).users.find?
        (fun x => x.username == "u" && x.hashed_password == "pw")).isSome :=
  c6_amended 3 (fun s => s ++ "#") (fun _ => "other") "sid"
    ⟨[⟨"u", "pw"⟩], [], 0, none, 24, 10, 30⟩ "u" "pw" rfl

/-- C7 counterexample: a `next` value of `" /adm"` does not start with
`/`, yet the login handler strips it first and keeps `"/adm"`: the
success response's redirect is `"/adm"`, not the `"/"` the claim's
sanitization (`claimSanitize`) prescribes for this value. -/
theorem c7_counterexample :
    (handle_login_post 0 (fun s => s) "sid7"
        (some (.obj [("username", .str "u"), ("password", .str "pw"), ("next", .str " /adm")]))
        ⟨[⟨"u", "pw"⟩], [], 0, none, 24, 10, 30⟩).1 =
      .json 200
        [("Content-type", "application/json"),
         ("Set-Cookie", "auth_token=sid7; Path=/; HttpOnly")]
        (.obj [("success", .bool true), ("message", .str "Login successful"),
               ("redirect", .str "/adm")]) ∧
    claimSanitize " /adm" = "/" ∧
    ("/adm" : String) ≠ "/" :=
  ⟨rfl, rfl, by decide⟩

/-- The redirect the login handler computes equals the claim's
sanitization applied to the stripped `next` value. -/
theorem login_redirect_eq_claimSanitize (s : String) :
    (if (if s ≠ "" ∧ pyStartswith s "/" = false then "/" else s) ≠ "" then
      (if s ≠ "" ∧ pyStartswith s "/" = false then "/" else s)
     else "/") = claimSanitize s := by
  by_cases hb : pyStartswith s "/" = true
  · have h1 : s ≠ "" := by
      intro h
      subst h
      simp [pyStartswith, List.isPrefixOf] at hb
    have hcond : ¬(s ≠ "" ∧ pyStartswith s "/" = false) := by
      simp [hb]
    rw [if_neg hcond, if_pos h1]
    simp [claimSanitize, hb]
  · have hb2 : pyStartswith s "/" = false := by
      cases h : pyStartswith s "/"
      · rfl
      · exact absurd h hb
    by_cases h1 : s = ""
    · subst h1
      simp [claimSanitize, pyStartswith, List.isPrefixOf]
    · rw [if_pos (And.intro h1 hb2), if_pos (show ("/" : String) ≠ "" by decide)]
      simp [claimSanitize, hb2]

/-- C7 amended: the login handler first strips the `next` field; the
stripped value is forced to `/` when it is nonempty and does not start
with `/`, empty `next` falls back to `/`, and on successful
authentication the response's redirect equals `claimSanitize` applied
to the stripped value. -/
theorem c7_amended (now : Nat) (hash : String → String) (sid : String)
    (data : List (String × Json)) (m : AuthManager) (u0 p0 v : String) (usr : User)
    (hu : dictGet data "username" = some (.str u0))
    (hp : dictGet data "password" = some (.str p0))
    (hn : dictGet data "next" = some (.str v))
    (hune : pyStrip u0 ≠ "")
    (hpne : p0 ≠ "")
    (hlock : m.lock_until = none)
    (hauth : m.users.find? (fun x => x.username == pyStrip u0 && x.hashed_password == p0) =
      some usr) :
    handle_login_post now hash sid (some (.obj data)) m =
      (.json 200
        [("Content-type", "application/json"),
         ("Set-Cookie", "auth_token=" ++ sid ++ "; Path=/; HttpOnly")]
        (.obj [("success", .bool true), ("message", .str "Login successful"),
               ("redirect", .str (claimSanitize (pyStrip v)))]),
       { m with sessions := dictInsert m.sessions sid ⟨usr, sid, now, now⟩,
                failed_attempts := 0 }) := by
  have hil : is_locked now m = (false, m) := by
    simp [is_locked, hlock]
  simp only [handle_login_post, hu, hp, hn, Option.getD_some]
  rw [if_neg (by simp [jsonTruthy, hune, hpne])]
  rw [hil]
  simp only [loginAuthenticate, authenticate_default, authenticate, hil, if_true, hauth]
  rw [login_redirect_eq_claimSanitize (pyStrip v)]

/-- Witness for C7's amended claim: `next = " /adm"` redirects to
`claimSanitize "/adm" = "/adm"`. -/
theorem c7_amended_witness :
    handle_login_post 0 (fun s => s) "sid7"
        (some (.obj [("username", .str "u"), ("password", .str "pw"), ("next", .str " /adm")]))
        ⟨[⟨"u", "pw"⟩], [], 0, none, 24, 10, 30⟩ =
      (.json 200
        [("Content-type", "application/json"),
         ("Set-Cookie", "auth_token=" ++ "sid7" ++ "; Path=/; HttpOnly")]
        (.obj [("success", .bool true), ("message", .str "Login successful"),
               ("redirect", .str (claimSanitize (pyStrip " /adm")))]),
       { users := [⟨"u", "pw"⟩], sessions := dictInsert [] "sid7" ⟨⟨"u", "pw"⟩, "sid7", 0, 0⟩,
         failed_attempts := 0, lock_until := none, session_timeout_hours := 24,
         lock_after_failed_attempts := 10, lock_after_failed_attempts_time_minutes := 30 }) :=
  c7_amended 0 (fun s => s) "sid7"
    [("username", .str "u"), ("password", .str "pw"), ("next", .str " /adm")]
    ⟨[⟨"u", "pw"⟩], [], 0, none, 24, 10, 30⟩ "u" "pw" " /adm" ⟨"u", "pw"⟩
    rfl rfl rfl (by decide) (by decide) rfl rfl

/-- A successful dictionary lookup means the key is among the keys. -/
theorem dictGet_some_mem {α : Type} (d : List (String × α)) (k : String) (v : α)
    (h : dictGet d k = some v) : k ∈ d.map Prod.fst := by
  simp only [dictGet, Option.map_eq_some'] at h
  rcases h with ⟨p, hfind, _⟩
  have hmem := List.mem_of_find?_eq_some hfind
  have hpred : p.1 = k := by simpa using List.find?_some hfind
  exact hpred ▸ List.mem_map.mpr ⟨p, hmem, rfl⟩

/-- A duplicate-free list contained in another is no longer than it. -/
theorem nodup_subset_length (l keys : List String) (hnd : l.Nodup)
    (hsub : ∀ x ∈ l, x ∈ keys) : l.length ≤ keys.length := by
  have h1 : l.toFinset.card = l.length := List.toFinset_card_of_nodup hnd
  have h2 : l.toFinset ⊆ keys.toFinset := by
    intro x hx
    rw [List.mem_toFinset] at hx ⊢
    exact hsub x hx
  calc l.length = l.toFinset.card := h1.symm
    _ ≤ keys.toFinset.card := Finset.card_le_card h2
    _ ≤ keys.length := List.toFinset_card_le keys

/-- Fuel sufficiency for the inheritance-chain walk: every successfully
visited template is a distinct key of the store, so with fuel exceeding
the number of unvisited keys the walk always completes (it never
returns `none`). -/
theorem buildChainAux_isSome (store : List (String × String)) :
    ∀ (fuel : Nat) (current : String) (visited chain : List String),
      visited.Nodup → (∀ v ∈ visited, v ∈ store.map Prod.fst) →
      (store.map Prod.fst).length + 1 ≤ fuel + visited.length →
      (buildChainAux store fuel current visited chain).isSome = true
  | 0, _, visited, _, hnd, hsub, hfuel => by
    have := nodup_subset_length visited (store.map Prod.fst) hnd hsub
    omega
  | fuel + 1, current, visited, chain, hnd, hsub, hfuel => by
    simp only [buildChainAux]
    by_cases hv : current ∈ visited
    · rw [if_pos hv]
      rfl
    · rw [if_neg hv]
      split
      · rfl
      · next content hg =>
        split
        · next parent he =>
          have hmem : current ∈ store.map Prod.fst := dictGet_some_mem store current content hg
          exact buildChainAux_isSome store fuel parent (current :: visited) (chain ++ [current])
            (List.nodup_cons.mpr ⟨hv, hnd⟩)
            (fun x hx => by
              rcases List.mem_cons.mp hx with h | h
              · exact h ▸ hmem
              · exact hsub x h)
            (by simp only [List.length_cons]; omega)
        · rfl

/-- C8: rendering is total and never propagates failure.  The chain
walk always terminates within its fuel (conjunct one); every render is
either the pipeline's output or the inline HTML error fragment built
from the internal error (conjunct two); a circular `extends` pair is
detected via the visited set and degraded to the circular-inheritance
fragment (conjunct three); a missing template likewise degrades to the
not-found fragment (conjunct four). -/
theorem c8_render_never_fails :
    (∀ (store : List (String × String)) (name : String),
      (build_inheritance_chain store name).isSome = true) ∧
    (∀ (store : List (String × String)) (name : String) (ctx : List (String × Json)),
      (∃ out, render_template_inner store name ctx = .ok out ∧
        render_template store name ctx = out) ∨
      (∃ msg, render_template_inner store name ctx = .error msg ∧
        render_template store name ctx =
          "<h1>Template Error</h1><p>Error rendering template: " ++ msg ++ "</p>")) ∧
    render_template
        [("a.html", "\x7b% extends \"b.html\" %\x7d"),
         ("b.html", "\x7b% extends \"a.html\" %\x7d")] "a.html" [] =
      "<h1>Template Error</h1><p>Error rendering template: Circular inheritance detected: a.html</p>" ∧
    render_template [] "missing.html" [] =
      "<h1>Template Error</h1><p>Error rendering template: Template not found: missing.html</p>" := by
  refine ⟨?_, ?_, rfl, rfl⟩
  · intro store name
    exact buildChainAux_isSome store (store.length + 1) name [] [] List.nodup_nil
      (fun x hx => absurd hx (List.not_mem_nil x)) (by simp)
  · intro store name ctx
    rcases h : render_template_inner store name ctx with msg | out
    · exact Or.inr ⟨msg, rfl, by simp [render_template, h]⟩
    · exact Or.inl ⟨out, rfl, by simp [render_template, h]⟩

set_option maxRecDepth 16384 in
/-- C9: for the chain `a.html` extends `b.html` extends `c.html`, block
resolution is most-derived-wins: the `title` block defined in the root
and overridden in `a.html` renders `a.html`'s content, the `body` block
defined only in the root renders the root's content, and the `foot`
placeholder, overridden by no more-derived chain member, renders its
own literal default text.  The chain and the collected block mapping
are also pinned down. -/
theorem c9_block_resolution :
    build_inheritance_chain
        [("a.html", "\x7b% extends \"b.html\" %\x7d\x7b% block title %\x7dA-title\x7b% endblock %\x7d"),
         ("b.html", "\x7b% extends \"c.html\" %\x7d"),
         ("c.html", "<t>\x7b% block title %\x7dC-title\x7b% endblock %\x7d|\x7b% block body %\x7dC-body\x7b% endblock %\x7d|\x7b% block foot %\x7dC-foot\x7b% endblock %\x7d</t>")]
        "a.html" =
      some (.ok ["a.html", "b.html", "c.html"]) ∧
    collect_blocks_from_chain
        [("a.html", "\x7b% extends \"b.html\" %\x7d\x7b% block title %\x7dA-title\x7b% endblock %\x7d"),
         ("b.html", "\x7b% extends \"c.html\" %\x7d"),
         ("c.html", "<t>\x7b% block title %\x7dC-title\x7b% endblock %\x7d|\x7b% block body %\x7dC-body\x7b% endblock %\x7d|\x7b% block foot %\x7dC-foot\x7b% endblock %\x7d</t>")]
        ["a.html", "b.html", "c.html"] =
      .ok [("title", "A-title"), ("body", "C-body"), ("foot", "C-foot")] ∧
    render_template
        [("a.html", "\x7b% extends \"b.html\" %\x7d\x7b% block title %\x7dA-title\x7b% endblock %\x7d"),
         ("b.html", "\x7b% extends \"c.html\" %\x7d"),
         ("c.html", "<t>\x7b% block title %\x7dC-title\x7b% endblock %\x7d|\x7b% block body %\x7dC-body\x7b% endblock %\x7d|\x7b% block foot %\x7dC-foot\x7b% endblock %\x7d</t>")]
        "a.html" [] =
      "<t>A-title|C-body|C-foot</t>" :=
  ⟨rfl, rfl, rfl⟩

/-- C10 counterexample: a placeholder written without inner spaces is
not left unchanged — the absent-variable fallback re-renders it with
canonical single spaces, so `\x7b\x7bmissing\x7d\x7d` comes out as
`\x7b\x7b missing \x7d\x7d`. -/
theorem c10_counterexample :
    process_variables [] "\x7b\x7bmissing\x7d\x7d" = "\x7b\x7b missing \x7d\x7d" ∧
    process_variables [] "\x7b\x7bmissing\x7d\x7d" ≠ "\x7b\x7bmissing\x7d\x7d" :=
  ⟨rfl, by decide⟩

/-- C10 amended: per placeholder, an absent value with a default clause
emits the (stripped) default text; an absent value without a default
emits the placeholder re-rendered as `\x7b\x7b path \x7d\x7d` with
canonical single spaces (identical to the original exactly when it was
written that way); booleans print as lowercase `true`/`false`; null
prints as the empty string; every other value uses the generic string
conversion.  The two spec examples evaluate accordingly. -/
theorem c10_variable_substitution (ctx : List (String × Json)) (path d : String) :
    (resolveVar ctx path = none →
      replaceVariable ctx path (some d) = d ∧
      replaceVariable ctx path none = "\x7b\x7b " ++ path ++ " \x7d\x7d") ∧
    (∀ b : Bool, resolveVar ctx path = some (.bool b) → ∀ d2 : Option String,
      replaceVariable ctx path d2 = if b then "true" else "false") ∧
    (resolveVar ctx path = some .null → ∀ d2 : Option String,
      replaceVariable ctx path d2 = "") ∧
    (∀ s : String, resolveVar ctx path = some (.str s) → ∀ d2 : Option String,
      replaceVariable ctx path d2 = pyStr (.str s)) ∧
    (∀ n : Int, resolveVar ctx path = some (.num n) → ∀ d2 : Option String,
      replaceVariable ctx path d2 = pyStr (.num n)) ∧
    process_variables [] "\x7b\x7b missing | fallback \x7d\x7d" = "fallback" ∧
    process_variables [] "\x7b\x7b missing \x7d\x7d" = "\x7b\x7b missing \x7d\x7d" := by
  refine ⟨fun h => ⟨?_, ?_⟩, fun b h d2 => ?_, fun h d2 => ?_, fun s h d2 => ?_,
    fun n h d2 => ?_, rfl, rfl⟩ <;>
    simp [replaceVariable, h]

/-- Witness for C10's amended claim at a concrete context and path. -/
theorem c10_variable_substitution_witness :
    replaceVariable [("x", .str "v")] "missing" (some "dflt") = "dflt" ∧
    replaceVariable [("x", .str "v")] "missing" none = "\x7b\x7b missing \x7d\x7d" := by
  have h := (c10_variable_substitution [("x", .str "v")] "missing" "dflt").1 rfl
  exact h
